import Mathlib

/-!
Verification development for `library/azure_rm_keyvault.py` of the
`azure_preview_modules` repository: a declarative reconciliation module for an
Azure Key Vault resource.

The Python module is shallowly embedded:
* Python dictionaries become association lists `Dict` over an inductive `Value`
  type (Python dicts have unique keys; `dset` replaces, `dpop` removes).
* The parameter-normalisation loop of `exec_module` (source lines 224-247)
  becomes `buildParameters`.
* The reconciliation logic of `exec_module` (source lines 249-312) becomes
  `exec_module`, with the external collaborators (resource-group lookup,
  `vaults.get`, `vaults.create_or_update`, `vaults.delete`, and the get
  outcomes observed by the post-delete poll loop) supplied by an `Env`
  record, and the sequence of remote calls recorded as a trace of `Call`
  events.  The unbounded post-delete poll loop takes explicit fuel; running
  out of fuel is the `Outcome.outOfFuel` result, representing a loop still
  running after `fuel` fetch attempts.
-/

/-- A Python value as far as this module manipulates them: strings, `None`,
lists and dictionaries.  Dictionaries are association lists with unique keys
(every dict the module builds goes through `dset`/`dpop`, which preserve
uniqueness). -/
inductive Value where
  | str : String → Value
  | vnull : Value
  | list : List Value → Value
  | dict : List (String × Value) → Value

/-- A Python dictionary with string keys. -/
abbrev Dict := List (String × Value)

/-- Python `d.get(k, None)` / `d[k]` lookup: first entry with key `k`. -/
def dget (d : Dict) (k : String) : Option Value :=
  match d with
  | [] => none
  | (k', v) :: rest => if k' = k then some v else dget rest k

/-- Python `d[k] = v`: replace the entry for `k` in place, or append a new one. -/
def dset (d : Dict) (k : String) (v : Value) : Dict :=
  match d with
  | [] => [(k, v)]
  | (k', v') :: rest => if k' = k then (k, v) :: rest else (k', v') :: dset rest k v

/-- Python `d.pop(k, None)`: remove the entry for `k` (a Python dict holds at most
one entry per key; removing every occurrence is the faithful reading). -/
def dpop (d : Dict) (k : String) : Dict :=
  match d with
  | [] => []
  | (k', v) :: rest => if k' = k then dpop rest k else (k', v) :: dpop rest k

/-- Python `k in d`. -/
def containsKey (d : Dict) (k : String) : Bool :=
  (dget d k).isSome

mutual

/-- Structural equality on `Value` (Python `==` on the JSON-like values this
module compares; dictionaries produced by `as_dict()` list their fields in the
model's canonical order, so pointwise entry equality is field-wise equality). -/
def valueEqB : Value → Value → Bool
  | Value.str a, Value.str b => a = b
  | Value.vnull, Value.vnull => true
  | Value.list a, Value.list b => listEqB a b
  | Value.dict a, Value.dict b => dictEqB a b
  | _, _ => false

/-- Pointwise equality of value lists. -/
def listEqB : List Value → List Value → Bool
  | [], [] => true
  | a :: as_, b :: bs => valueEqB a b && listEqB as_ bs
  | _, _ => false

/-- Field-wise equality of dictionaries. -/
def dictEqB : List (String × Value) → List (String × Value) → Bool
  | [], [] => true
  | (k, v) :: as_, (k', v') :: bs => k = k' && valueEqB v v' && dictEqB as_ bs
  | _, _ => false

end

/-- The caller-supplied options (`module_arg_spec`, source lines 160-206):
`resource_group`, `vault_name` and `state` are consumed as instance
attributes; every other option is optional (`none` models Python `None`,
i.e. the option was not supplied). -/
structure DesiredConfig where
  resource_group : String
  vault_name : String
  location : Option Value
  tenant_id : Option Value
  sku : Option Value
  access_policies : Option Value
  vault_uri : Option Value
  enabled_for_deployment : Option Value
  enabled_for_disk_encryption : Option Value
  enabled_for_template_deployment : Option Value
  enable_soft_delete : Option Value
  create_mode : Option Value
  state : String

/-- The `properties` sub-dictionary of a payload (empty when not yet created). -/
def getProps (d : Dict) : Dict :=
  match dget d "properties" with
  | some (Value.dict p) => p
  | _ => []

/-- Source `self.parameters.setdefault("properties", ...)[k] = v` (lines
230-247): write `k` into the lazily created `properties` sub-dictionary. -/
def setProp (d : Dict) (k : String) (v : Value) : Dict :=
  dset d "properties" (Value.dict (dset (getProps d) k v))

/-- Apply `setProp` when the option was supplied (`elif kwargs[key] is not
None`, source line 227), else leave the payload unchanged. -/
def setPropOpt (d : Dict) (k : String) (o : Option Value) : Dict :=
  match o with
  | some v => setProp d k v
  | none => d

/-- Source `self.parameters["location"] = kwargs["location"]` when supplied
(source lines 228-229). -/
def setLocOpt (d : Dict) (o : Option Value) : Dict :=
  match o with
  | some v => dset d "location" v
  | none => d

/-- The parameter-normalisation loop of `exec_module` (source lines 224-247):
iterate the argument-spec keys in declaration order; every supplied option is
written into `self.parameters`, `location` at top level and the rest under
the lazily created `properties` container. -/
def buildParameters (cfg : DesiredConfig) : Dict :=
  let d : Dict := []
  let d := setLocOpt d cfg.location
  let d := setPropOpt d "tenant_id" cfg.tenant_id
  let d := setPropOpt d "sku" cfg.sku
  let d := setPropOpt d "access_policies" cfg.access_policies
  let d := setPropOpt d "vault_uri" cfg.vault_uri
  let d := setPropOpt d "enabled_for_deployment" cfg.enabled_for_deployment
  let d := setPropOpt d "enabled_for_disk_encryption" cfg.enabled_for_disk_encryption
  let d := setPropOpt d "enabled_for_template_deployment" cfg.enabled_for_template_deployment
  let d := setPropOpt d "enable_soft_delete" cfg.enable_soft_delete
  let d := setPropOpt d "create_mode" cfg.create_mode
  d

/-- Source method `AzureRMVaults.rename_key` (lines 321-325): move the value of
`old_name` to `new_name` within the same dictionary, only when present and
not `None`. -/
def rename_key (d : Dict) (old_name new_name : String) : Dict :=
  match dget d old_name with
  | some Value.vnull => d
  | some v => dset (dpop d old_name) new_name v
  | none => d

/-- The `permissions` sub-dictionary of an access-policy entry (empty when
not yet created). -/
def getPermDict (d : Dict) : Dict :=
  match dget d "permissions" with
  | some (Value.dict p) => p
  | _ => []

/-- Modelled from the spec: the body of `AzureRMVaults.adjust_parameters`
(source lines 314-319) holds only four comments naming the permission
options (`option keys must go to dictionary :permissions as keys`, etc.); the
operation itself is missing from the source.  Per the spec, each of the four
fields `keys`, `secrets`, `certificates`, `storage` present in an
access-policy entry is moved under a lazily created nested `permissions`
container under the same key; absent fields are left absent (no default
injection). -/
def movePermission (d : Dict) (name : String) : Dict :=
  match dget d name with
  | some v => dset (dpop d name) "permissions" (Value.dict (dset (getPermDict d) name v))
  | none => d

/-- Modelled from the spec: the per-entry normalisation performed by
`adjust_parameters` — the generic move-under-`permissions` operation applied
once for each of the four permission fields. -/
def movePerms (d : Dict) : Dict :=
  movePermission (movePermission (movePermission (movePermission d "keys") "secrets") "certificates") "storage"

/-- A single access-policy entry normalised (entries that are not
dictionaries pass through untouched). -/
def adjustPolicy : Value → Value
  | Value.dict e => Value.dict (movePerms e)
  | v => v

/-- Source method `AzureRMVaults.adjust_parameters` (lines 314-319): when
`access_policies` was supplied, normalise each entry.  The guard
(`self.parameters.get('access_policies', None) is not None`) is source; the
loop body is modelled from the spec (see `movePermission`). -/
def adjust_parameters (d : Dict) : Dict :=
  match dget d "access_policies" with
  | some (Value.list ps) => dset d "access_policies" (Value.list (ps.map adjustPolicy))
  | _ => d

/-- Source `class Actions` (lines 152-153). -/
inductive Actions where
  | NoAction : Actions
  | Create : Actions
  | Update : Actions
  | Delete : Actions
deriving DecidableEq, Repr

/-- Outcome of one remote `vaults.get` call: either the deserialised resource
or a raised `CloudError` (carrying its message); the client signals not-found
and every other call failure alike by raising. -/
inductive GetResult where
  | found : Dict → GetResult
  | cloudError : String → GetResult

/-- Outcome of `vaults.create_or_update` (after any long-running-operation
polling): the deserialised final result, or a raised `CloudError`. -/
inductive CUResult where
  | ok : Dict → CUResult
  | cloudError : String → CUResult

/-- Outcome of `vaults.delete`: an acknowledgement or a raised `CloudError`. -/
inductive DelResult where
  | ok : DelResult
  | cloudError : String → DelResult

/-- The external collaborators of one invocation as the module observes them:
the dry-run flag, the resource-group lookup (the base class fails the module
when the group cannot be resolved, so an `error` propagates), the initial
`vaults.get` outcome, the `create_or_update` and `delete` outcomes, and the
stream of `vaults.get` outcomes seen by the post-delete poll loop (`polls n`
is the outcome of the `n`-th poll fetch). -/
structure Env where
  check_mode : Bool
  rg : Except String String
  initialGet : GetResult
  createUpdate : CUResult
  deleteRes : DelResult
  polls : Nat → GetResult

/-- One remote interaction during an invocation; `sleep20` is the fixed
20-second `time.sleep(20)` between poll fetches (source line 303). -/
inductive Call where
  | getRG : Call
  | get : Call
  | createOrUpdate : Dict → Call
  | delete : Call
  | sleep20 : Call

/-- The module's result object (`self.results`). -/
structure Results where
  changed : Bool
  id : Option Value

/-- How one invocation ends: a result returned to the caller, a failure
(`self.fail`), or — in the fuel-bounded model of the unbounded post-delete
poll loop — still polling after the given number of fetches. -/
inductive Outcome where
  | ok : Results → Outcome
  | failed : String → Outcome
  | outOfFuel : Outcome

/-- Source method `AzureRMVaults.get_keyvault` (lines 363-382): return the
deserialised resource, or `none` (Python `False`) when the remote get raised
`CloudError` — any such failure is swallowed and reported as absence. -/
def getKeyvault : GetResult → Option Dict
  | GetResult.found d => some d
  | GetResult.cloudError _ => none

/-- Python truthiness of a `get_keyvault` result (`if not old_response`,
source line 264): `False` and the empty dictionary are falsy. -/
def truthyOpt : Option Dict → Bool
  | some d => !d.isEmpty
  | none => false

/-- The action-selection logic of `exec_module` (source lines 264-276), keyed
on the truthiness of the fetched state and the desired `state` option
(`to_do` starts as `NoAction` and is only reassigned in the listed cases). -/
def chooseAction (oldTruthy : Bool) (state : String) : Actions :=
  if !oldTruthy then
    if state = "absent" then Actions.NoAction else Actions.Create
  else
    if state = "absent" then Actions.Delete
    else if state = "present" then Actions.Update
    else Actions.NoAction

/-- The post-delete poll loop (source lines 302-303): `while
self.get_keyvault(): time.sleep(20)`, with explicit fuel bounding how many
fetches the model observes.  Returns whether the loop exited within the fuel,
and the calls it made. -/
def pollLoop (polls : Nat → GetResult) (i : Nat) : Nat → Bool × List Call
  | 0 => (false, [])
  | fuel + 1 =>
    if truthyOpt (getKeyvault (polls i)) then
      let r := pollLoop polls (i + 1) fuel
      (r.1, Call.get :: Call.sleep20 :: r.2)
    else
      (true, [Call.get])

/-- Source `if response: self.results["id"] = response["id"]` (lines
309-310): the reported identifier, when the final response is truthy. -/
def idOf (response : Option Dict) : Option Value :=
  match response with
  | some d => if d.isEmpty then none else dget d "id"
  | none => none

/-- The request payload as dispatched: the normalised parameters, with
`location` defaulted from the resource group's location when unset
(source lines 249 and 259-260). -/
def dispatchParams (cfg : DesiredConfig) (rgLocation : String) : Dict :=
  let params0 := adjust_parameters (buildParameters cfg)
  if containsKey params0 "location" then params0
  else dset params0 "location" (Value.str rgLocation)

/-- Source method `AzureRMVaults.exec_module` (lines 249-312) after the parameter
loop: normalise the payload, resolve the resource group (defaulting
`location` from it when unset), fetch the current state, select and perform
the action, and report the outcome together with the trace of remote calls. -/
def exec_module (cfg : DesiredConfig) (env : Env) (fuel : Nat) : Outcome × List Call :=
  match env.rg with
  | Except.error e => (Outcome.failed e, [Call.getRG])
  | Except.ok rgLocation =>
    let params := dispatchParams cfg rgLocation
    let old := getKeyvault env.initialGet
    match chooseAction (truthyOpt old) cfg.state with
    | Actions.Create | Actions.Update =>
      if env.check_mode then (Outcome.ok ⟨true, none⟩, [Call.getRG, Call.get])
      else
        match env.createUpdate with
        | CUResult.cloudError msg =>
          (Outcome.failed ("Error creating the Key Vault instance: " ++ msg),
           [Call.getRG, Call.get, Call.createOrUpdate params])
        | CUResult.ok resp =>
          let changed := if !truthyOpt old then true else !dictEqB (old.getD []) resp
          (Outcome.ok ⟨changed, idOf (some resp)⟩,
           [Call.getRG, Call.get, Call.createOrUpdate params])
    | Actions.Delete =>
      if env.check_mode then (Outcome.ok ⟨true, none⟩, [Call.getRG, Call.get])
      else
        match env.deleteRes with
        | DelResult.cloudError msg =>
          (Outcome.failed ("Error deleting the Key Vault instance: " ++ msg),
           [Call.getRG, Call.get, Call.delete])
        | DelResult.ok =>
          let r := pollLoop env.polls 0 fuel
          ((if r.1 then Outcome.ok ⟨true, none⟩ else Outcome.outOfFuel),
           [Call.getRG, Call.get, Call.delete] ++ r.2)
    | Actions.NoAction =>
      (Outcome.ok ⟨false, idOf old⟩, [Call.getRG, Call.get])

/-- Predicate on trace events: a `create_or_update` dispatch. -/
def isCU : Call → Bool
  | Call.createOrUpdate _ => true
  | _ => false

/-- Predicate on trace events: a `delete` dispatch. -/
def isDel : Call → Bool
  | Call.delete => true
  | _ => false

/-- Predicate on trace events: a mutating remote call (`create_or_update` or
`delete`). -/
def isMutating (c : Call) : Bool :=
  isCU c || isDel c

/-- Apply `dset` when the option is present, identity otherwise (used to state the
characterisations of the lazily built dictionaries). -/
def dsetOpt (d : Dict) (k : String) (o : Option Value) : Dict :=
  match o with
  | some v => dset d k v
  | none => d

/-- A concrete access-policy entry in the caller-facing flat shape. -/
def entryEx : Dict :=
  [("object_id", Value.str "oid"), ("keys", Value.list [Value.str "get"])]

/-- A concrete SKU value. -/
def skuEx : Value :=
  Value.dict [("family", Value.str "A"), ("name", Value.str "standard")]

/-- A concrete desired configuration with `state = present` and no
`location`. -/
def cfgPresent : DesiredConfig :=
  { resource_group := "rg1", vault_name := "kv1", location := none,
    tenant_id := none, sku := some skuEx, access_policies := none,
    vault_uri := none, enabled_for_deployment := none,
    enabled_for_disk_encryption := none, enabled_for_template_deployment := none,
    enable_soft_delete := none, create_mode := none, state := "present" }

/-- The same desired configuration with `state = absent`. -/
def cfgAbsent : DesiredConfig :=
  { cfgPresent with state := "absent" }

/-- The desired configuration `cfgPresent` carrying one access-policy entry
in the caller-facing flat shape. -/
def cfgPolicy : DesiredConfig :=
  { cfgPresent with access_policies := some (Value.list [Value.dict entryEx]) }

/-- A concrete previously observed remote state. -/
def oldEx : Dict := [("id", Value.str "vid-old")]

/-- A concrete state returned by `create_or_update`. -/
def respEx : Dict := [("id", Value.str "vid")]

/-- A concrete environment: resource present remotely, all remote calls
succeed, the first post-delete poll reports absence. -/
def envUpdate : Env :=
  { check_mode := false, rg := Except.ok "eastus",
    initialGet := GetResult.found oldEx, createUpdate := CUResult.ok respEx,
    deleteRes := DelResult.ok, polls := fun _ => GetResult.cloudError "nf" }

/-- The environment `envUpdate` in check mode. -/
def envCheck : Env := { envUpdate with check_mode := true }

/-- An environment whose resource group cannot be resolved and whose initial
get fails. -/
def envRgFail : Env :=
  { envUpdate with
    rg := Except.error "rg missing"
    initialGet := GetResult.cloudError "boom" }

/-- The environment `envUpdate` with a failing `create_or_update`. -/
def envCreateFail : Env :=
  { envUpdate with createUpdate := CUResult.cloudError "quota" }

/-- The environment `envUpdate` with a failing `delete`. -/
def envDeleteFail : Env :=
  { envUpdate with deleteRes := DelResult.cloudError "denied" }

theorem dget_dset_eq (d : Dict) (k : String) (v : Value) :
    dget (dset d k v) k = some v := by
  induction d with
  | nil => simp [dget, dset]
  | cons kv rest ih =>
    by_cases h : kv.1 = k
    · simp [dget, dset, h]
    · simp [dget, dset, h, ih]

theorem dget_dset_ne (d : Dict) (k k' : String) (v : Value) (h : k' ≠ k) :
    dget (dset d k v) k' = dget d k' := by
  have h2 : ¬(k = k') := fun hh => h hh.symm
  induction d with
  | nil => simp [dget, dset, h2]
  | cons kv rest ih =>
    by_cases hk : kv.1 = k
    · simp [dget, dset, hk, h2]
    · simp [dget, dset, hk, ih]

theorem dget_dpop_eq (d : Dict) (k : String) : dget (dpop d k) k = none := by
  induction d with
  | nil => simp [dget, dpop]
  | cons kv rest ih =>
    by_cases h : kv.1 = k
    · simp [dpop, h, ih]
    · simp [dpop, dget, h, ih]

theorem dget_dpop_ne (d : Dict) (k k' : String) (h : k' ≠ k) :
    dget (dpop d k) k' = dget d k' := by
  have h2 : ¬(k = k') := fun hh => h hh.symm
  induction d with
  | nil => simp [dget, dpop]
  | cons kv rest ih =>
    by_cases hk : kv.1 = k
    · simp [dpop, dget, hk, h2, ih]
    · simp [dpop, dget, hk, ih]

/-- C1: for every invocation, the action selected from the observed and
desired state is exactly: `NoAction` when the remote resource is absent
(fetched state falsy) and the desired state is `absent`; `Create` when absent
and `present`; `Delete` when present and `absent`; `Update` when present and
`present` (source lines 264-276). -/
theorem claim_C1_action_selection :
    chooseAction false "absent" = Actions.NoAction ∧
    chooseAction false "present" = Actions.Create ∧
    chooseAction true "absent" = Actions.Delete ∧
    chooseAction true "present" = Actions.Update := by
  refine ⟨?_, ?_, ?_, ?_⟩ <;> simp [chooseAction]

theorem getProps_setProp (d : Dict) (k : String) (v : Value) :
    getProps (setProp d k v) = dset (getProps d) k v := by
  simp [getProps, setProp, dget_dset_eq]

theorem getProps_setPropOpt (d : Dict) (k : String) (o : Option Value) :
    getProps (setPropOpt d k o) = dsetOpt (getProps d) k o := by
  cases o with
  | some v => simp [setPropOpt, dsetOpt, getProps_setProp]
  | none => simp [setPropOpt, dsetOpt]

theorem getProps_setLocOpt (d : Dict) (o : Option Value) :
    getProps (setLocOpt d o) = getProps d := by
  cases o with
  | some v =>
    simp only [setLocOpt, getProps]
    rw [dget_dset_ne _ _ _ _ (by decide)]
  | none => rfl

theorem dget_setPropOpt_ne (d : Dict) (k k' : String) (o : Option Value)
    (h : k' ≠ "properties") : dget (setPropOpt d k o) k' = dget d k' := by
  cases o with
  | some v =>
    simp only [setPropOpt, setProp]
    rw [dget_dset_ne _ _ _ _ h]
  | none => rfl

theorem dget_setLocOpt_ne (d : Dict) (k' : String) (o : Option Value)
    (h : k' ≠ "location") : dget (setLocOpt d o) k' = dget d k' := by
  cases o with
  | some v =>
    simp only [setLocOpt]
    rw [dget_dset_ne _ _ _ _ h]
  | none => rfl

theorem dget_dsetOpt_ne (d : Dict) (k k' : String) (o : Option Value)
    (h : k' ≠ k) : dget (dsetOpt d k o) k' = dget d k' := by
  cases o with
  | some v =>
    simp only [dsetOpt]
    rw [dget_dset_ne _ _ _ _ h]
  | none => rfl

theorem dget_dsetOpt_eq (d : Dict) (k : String) (o : Option Value)
    (h : dget d k = none) : dget (dsetOpt d k o) k = o := by
  cases o with
  | some v => simp [dsetOpt, dget_dset_eq]
  | none => simpa [dsetOpt] using h

/-- The `properties` container of the normalised payload is exactly the
write-through of the nine `properties` options, in source order. -/
theorem getProps_buildParameters (cfg : DesiredConfig) :
    getProps (buildParameters cfg) =
      dsetOpt (dsetOpt (dsetOpt (dsetOpt (dsetOpt (dsetOpt (dsetOpt (dsetOpt
        (dsetOpt [] "tenant_id" cfg.tenant_id) "sku" cfg.sku)
        "access_policies" cfg.access_policies) "vault_uri" cfg.vault_uri)
        "enabled_for_deployment" cfg.enabled_for_deployment)
        "enabled_for_disk_encryption" cfg.enabled_for_disk_encryption)
        "enabled_for_template_deployment" cfg.enabled_for_template_deployment)
        "enable_soft_delete" cfg.enable_soft_delete)
        "create_mode" cfg.create_mode := by
  have hnil : getProps [] = [] := rfl
  simp only [buildParameters, getProps_setPropOpt, getProps_setLocOpt, hnil]

/-- The normalised payload's top-level `location` is exactly the supplied
`location` option. -/
theorem dget_buildParameters_location (cfg : DesiredConfig) :
    dget (buildParameters cfg) "location" = cfg.location := by
  simp only [buildParameters]
  rw [dget_setPropOpt_ne _ _ _ _ (by decide), dget_setPropOpt_ne _ _ _ _ (by decide),
      dget_setPropOpt_ne _ _ _ _ (by decide), dget_setPropOpt_ne _ _ _ _ (by decide),
      dget_setPropOpt_ne _ _ _ _ (by decide), dget_setPropOpt_ne _ _ _ _ (by decide),
      dget_setPropOpt_ne _ _ _ _ (by decide), dget_setPropOpt_ne _ _ _ _ (by decide),
      dget_setPropOpt_ne _ _ _ _ (by decide)]
  cases h : cfg.location with
  | some v => simp [setLocOpt, dget_dset_eq]
  | none => simp [setLocOpt, dget]

theorem containsKey_setPropOpt_properties (d : Dict) (k : String) (o : Option Value) :
    containsKey (setPropOpt d k o) "properties" = (o.isSome || containsKey d "properties") := by
  cases o with
  | some v => simp [setPropOpt, setProp, containsKey, dget_dset_eq]
  | none => simp [setPropOpt]

theorem containsKey_setLocOpt_properties (d : Dict) (o : Option Value) :
    containsKey (setLocOpt d o) "properties" = containsKey d "properties" := by
  simp only [containsKey]
  rw [dget_setLocOpt_ne _ _ _ (by decide)]

theorem dget_buildParameters_other (cfg : DesiredConfig) (k : String)
    (h1 : k ≠ "location") (h2 : k ≠ "properties") :
    dget (buildParameters cfg) k = none := by
  simp only [buildParameters]
  rw [dget_setPropOpt_ne _ _ _ _ h2, dget_setPropOpt_ne _ _ _ _ h2,
      dget_setPropOpt_ne _ _ _ _ h2, dget_setPropOpt_ne _ _ _ _ h2,
      dget_setPropOpt_ne _ _ _ _ h2, dget_setPropOpt_ne _ _ _ _ h2,
      dget_setPropOpt_ne _ _ _ _ h2, dget_setPropOpt_ne _ _ _ _ h2,
      dget_setPropOpt_ne _ _ _ _ h2, dget_setLocOpt_ne _ _ _ h1]
  rfl

/-- C5: for every desired configuration, each non-null field among tenant id,
SKU, access policies, vault URI, the three deployment-enablement flags,
soft-delete flag and create-mode is placed (verbatim) under the nested
`properties` container of the request payload, created lazily on first
insertion, while null fields produce no entry at all; only `location` remains
top-level (source lines 224-247). -/
theorem claim_C5_payload_nesting (cfg : DesiredConfig) :
    dget (getProps (buildParameters cfg)) "tenant_id" = cfg.tenant_id ∧
    dget (getProps (buildParameters cfg)) "sku" = cfg.sku ∧
    dget (getProps (buildParameters cfg)) "access_policies" = cfg.access_policies ∧
    dget (getProps (buildParameters cfg)) "vault_uri" = cfg.vault_uri ∧
    dget (getProps (buildParameters cfg)) "enabled_for_deployment" = cfg.enabled_for_deployment ∧
    dget (getProps (buildParameters cfg)) "enabled_for_disk_encryption" = cfg.enabled_for_disk_encryption ∧
    dget (getProps (buildParameters cfg)) "enabled_for_template_deployment" = cfg.enabled_for_template_deployment ∧
    dget (getProps (buildParameters cfg)) "enable_soft_delete" = cfg.enable_soft_delete ∧
    dget (getProps (buildParameters cfg)) "create_mode" = cfg.create_mode ∧
    containsKey (buildParameters cfg) "properties" =
      (cfg.tenant_id.isSome || cfg.sku.isSome || cfg.access_policies.isSome ||
       cfg.vault_uri.isSome || cfg.enabled_for_deployment.isSome ||
       cfg.enabled_for_disk_encryption.isSome || cfg.enabled_for_template_deployment.isSome ||
       cfg.enable_soft_delete.isSome || cfg.create_mode.isSome) ∧
    (∀ k, k ≠ "location" → k ≠ "properties" → dget (buildParameters cfg) k = none) := by
  refine ⟨?_, ?_, ?_, ?_, ?_, ?_, ?_, ?_, ?_, ?_, fun k h1 h2 => dget_buildParameters_other cfg k h1 h2⟩
  · rw [getProps_buildParameters
        , dget_dsetOpt_ne _ _ _ _ (by decide)
        , dget_dsetOpt_ne _ _ _ _ (by decide)
        , dget_dsetOpt_ne _ _ _ _ (by decide)
        , dget_dsetOpt_ne _ _ _ _ (by decide)
        , dget_dsetOpt_ne _ _ _ _ (by decide)
        , dget_dsetOpt_ne _ _ _ _ (by decide)
        , dget_dsetOpt_ne _ _ _ _ (by decide)
        , dget_dsetOpt_ne _ _ _ _ (by decide)
        ]
    apply dget_dsetOpt_eq
    rfl
  · rw [getProps_buildParameters
        , dget_dsetOpt_ne _ _ _ _ (by decide)
        , dget_dsetOpt_ne _ _ _ _ (by decide)
        , dget_dsetOpt_ne _ _ _ _ (by decide)
        , dget_dsetOpt_ne _ _ _ _ (by decide)
        , dget_dsetOpt_ne _ _ _ _ (by decide)
        , dget_dsetOpt_ne _ _ _ _ (by decide)
        , dget_dsetOpt_ne _ _ _ _ (by decide)
        ]
    apply dget_dsetOpt_eq
    rw [dget_dsetOpt_ne _ _ _ _ (by decide)]
    rfl
  · rw [getProps_buildParameters
        , dget_dsetOpt_ne _ _ _ _ (by decide)
        , dget_dsetOpt_ne _ _ _ _ (by decide)
        , dget_dsetOpt_ne _ _ _ _ (by decide)
        , dget_dsetOpt_ne _ _ _ _ (by decide)
        , dget_dsetOpt_ne _ _ _ _ (by decide)
        , dget_dsetOpt_ne _ _ _ _ (by decide)
        ]
    apply dget_dsetOpt_eq
    rw [dget_dsetOpt_ne _ _ _ _ (by decide), dget_dsetOpt_ne _ _ _ _ (by decide)]
    rfl
  · rw [getProps_buildParameters
        , dget_dsetOpt_ne _ _ _ _ (by decide)
        , dget_dsetOpt_ne _ _ _ _ (by decide)
        , dget_dsetOpt_ne _ _ _ _ (by decide)
        , dget_dsetOpt_ne _ _ _ _ (by decide)
        , dget_dsetOpt_ne _ _ _ _ (by decide)
        ]
    apply dget_dsetOpt_eq
    rw [dget_dsetOpt_ne _ _ _ _ (by decide), dget_dsetOpt_ne _ _ _ _ (by decide), dget_dsetOpt_ne _ _ _ _ (by decide)]
    rfl
  · rw [getProps_buildParameters
        , dget_dsetOpt_ne _ _ _ _ (by decide)
        , dget_dsetOpt_ne _ _ _ _ (by decide)
        , dget_dsetOpt_ne _ _ _ _ (by decide)
        , dget_dsetOpt_ne _ _ _ _ (by decide)
        ]
    apply dget_dsetOpt_eq
    rw [dget_dsetOpt_ne _ _ _ _ (by decide), dget_dsetOpt_ne _ _ _ _ (by decide), dget_dsetOpt_ne _ _ _ _ (by decide), dget_dsetOpt_ne _ _ _ _ (by decide)]
    rfl
  · rw [getProps_buildParameters
        , dget_dsetOpt_ne _ _ _ _ (by decide)
        , dget_dsetOpt_ne _ _ _ _ (by decide)
        , dget_dsetOpt_ne _ _ _ _ (by decide)
        ]
    apply dget_dsetOpt_eq
    rw [dget_dsetOpt_ne _ _ _ _ (by decide), dget_dsetOpt_ne _ _ _ _ (by decide), dget_dsetOpt_ne _ _ _ _ (by decide), dget_dsetOpt_ne _ _ _ _ (by decide), dget_dsetOpt_ne _ _ _ _ (by decide)]
    rfl
  · rw [getProps_buildParameters
        , dget_dsetOpt_ne _ _ _ _ (by decide)
        , dget_dsetOpt_ne _ _ _ _ (by decide)
        ]
    apply dget_dsetOpt_eq
    rw [dget_dsetOpt_ne _ _ _ _ (by decide), dget_dsetOpt_ne _ _ _ _ (by decide), dget_dsetOpt_ne _ _ _ _ (by decide), dget_dsetOpt_ne _ _ _ _ (by decide), dget_dsetOpt_ne _ _ _ _ (by decide), dget_dsetOpt_ne _ _ _ _ (by decide)]
    rfl
  · rw [getProps_buildParameters
        , dget_dsetOpt_ne _ _ _ _ (by decide)
        ]
    apply dget_dsetOpt_eq
    rw [dget_dsetOpt_ne _ _ _ _ (by decide), dget_dsetOpt_ne _ _ _ _ (by decide), dget_dsetOpt_ne _ _ _ _ (by decide), dget_dsetOpt_ne _ _ _ _ (by decide), dget_dsetOpt_ne _ _ _ _ (by decide), dget_dsetOpt_ne _ _ _ _ (by decide), dget_dsetOpt_ne _ _ _ _ (by decide)]
    rfl
  · rw [getProps_buildParameters
        ]
    apply dget_dsetOpt_eq
    rw [dget_dsetOpt_ne _ _ _ _ (by decide), dget_dsetOpt_ne _ _ _ _ (by decide), dget_dsetOpt_ne _ _ _ _ (by decide), dget_dsetOpt_ne _ _ _ _ (by decide), dget_dsetOpt_ne _ _ _ _ (by decide), dget_dsetOpt_ne _ _ _ _ (by decide), dget_dsetOpt_ne _ _ _ _ (by decide), dget_dsetOpt_ne _ _ _ _ (by decide)]
    rfl
  · simp only [buildParameters, containsKey_setPropOpt_properties,
      containsKey_setLocOpt_properties]
    have hnil : containsKey [] "properties" = false := rfl
    rw [hnil]
    cases cfg.tenant_id <;> cases cfg.sku <;> cases cfg.access_policies <;>
      cases cfg.vault_uri <;> cases cfg.enabled_for_deployment <;>
      cases cfg.enabled_for_disk_encryption <;> cases cfg.enabled_for_template_deployment <;>
      cases cfg.enable_soft_delete <;> cases cfg.create_mode <;> rfl

theorem movePermission_absent (d : Dict) (name : String) (h : dget d name = none) :
    movePermission d name = d := by
  simp [movePermission, h]

theorem dget_movePermission_other (d : Dict) (name k : String)
    (h1 : k ≠ name) (h2 : k ≠ "permissions") :
    dget (movePermission d name) k = dget d k := by
  cases hv : dget d name with
  | none => rw [movePermission_absent d name hv]
  | some v =>
    simp only [movePermission, hv]
    rw [dget_dset_ne _ _ _ _ h2, dget_dpop_ne _ _ _ h1]

theorem dget_movePermission_self (d : Dict) (name : String) (h : name ≠ "permissions") :
    dget (movePermission d name) name = none := by
  cases hv : dget d name with
  | none => rw [movePermission_absent d name hv, hv]
  | some v =>
    simp only [movePermission, hv]
    rw [dget_dset_ne _ _ _ _ h, dget_dpop_eq]

theorem getPermDict_movePermission (d : Dict) (name : String) :
    getPermDict (movePermission d name) = dsetOpt (getPermDict d) name (dget d name) := by
  cases hv : dget d name with
  | none => rw [movePermission_absent d name hv]; rfl
  | some v =>
    simp only [movePermission, hv, dsetOpt, getPermDict, dget_dset_eq]

theorem containsKey_movePermission_permissions (d : Dict) (name : String) :
    containsKey (movePermission d name) "permissions" =
      ((dget d name).isSome || containsKey d "permissions") := by
  cases hv : dget d name with
  | none => rw [movePermission_absent d name hv]; rfl
  | some v =>
    simp only [movePermission, hv, containsKey, dget_dset_eq, Option.isSome_some,
      Bool.true_or]

theorem getPermDict_of_no_permissions (e : Dict) (h : dget e "permissions" = none) :
    getPermDict e = [] := by
  simp [getPermDict, h]

theorem dget_movePerms_top (e : Dict) :
    dget (movePerms e) "keys" = none ∧ dget (movePerms e) "secrets" = none ∧
    dget (movePerms e) "certificates" = none ∧ dget (movePerms e) "storage" = none := by
  refine ⟨?_, ?_, ?_, ?_⟩
  · simp only [movePerms]
    rw [dget_movePermission_other _ _ _ (by decide) (by decide),
        dget_movePermission_other _ _ _ (by decide) (by decide),
        dget_movePermission_other _ _ _ (by decide) (by decide),
        dget_movePermission_self _ _ (by decide)]
  · simp only [movePerms]
    rw [dget_movePermission_other _ _ _ (by decide) (by decide),
        dget_movePermission_other _ _ _ (by decide) (by decide),
        dget_movePermission_self _ _ (by decide)]
  · simp only [movePerms]
    rw [dget_movePermission_other _ _ _ (by decide) (by decide),
        dget_movePermission_self _ _ (by decide)]
  · simp only [movePerms]
    rw [dget_movePermission_self _ _ (by decide)]

theorem getPermDict_movePerms (e : Dict) :
    getPermDict (movePerms e) =
      dsetOpt (dsetOpt (dsetOpt (dsetOpt (getPermDict e) "keys" (dget e "keys"))
        "secrets" (dget e "secrets")) "certificates" (dget e "certificates"))
        "storage" (dget e "storage") := by
  simp only [movePerms, getPermDict_movePermission]
  rw [dget_movePermission_other _ _ _ (by decide) (by decide),
      dget_movePermission_other _ _ _ (by decide) (by decide),
      dget_movePermission_other _ _ _ (by decide) (by decide),
      dget_movePermission_other _ _ _ (by decide) (by decide),
      dget_movePermission_other _ _ _ (by decide) (by decide),
      dget_movePermission_other _ _ _ (by decide) (by decide)]

/-- Behaviour of the spec-modelled entry normalisation in isolation: on a
flat access-policy entry (no pre-existing `permissions` field), `movePerms`
removes the four permission fields from the top level, collects exactly the
present ones verbatim into a `permissions` container (created exactly when
one of them is present), and `adjust_parameters` would map an
`access_policies` list pointwise by it — if its guard ever fired (see
`claim_C2_dead_guard`: on payloads the program builds, it does not). -/
theorem movePerms_flat_entry (e : Dict) (hperm : dget e "permissions" = none) :
    (dget (movePerms e) "keys" = none ∧ dget (movePerms e) "secrets" = none ∧
     dget (movePerms e) "certificates" = none ∧ dget (movePerms e) "storage" = none) ∧
    (dget (getPermDict (movePerms e)) "keys" = dget e "keys" ∧
     dget (getPermDict (movePerms e)) "secrets" = dget e "secrets" ∧
     dget (getPermDict (movePerms e)) "certificates" = dget e "certificates" ∧
     dget (getPermDict (movePerms e)) "storage" = dget e "storage") ∧
    (∀ k, k ≠ "keys" → k ≠ "secrets" → k ≠ "certificates" → k ≠ "storage" →
      dget (getPermDict (movePerms e)) k = none) ∧
    containsKey (movePerms e) "permissions" =
      ((dget e "keys").isSome || (dget e "secrets").isSome ||
       (dget e "certificates").isSome || (dget e "storage").isSome) ∧
    (∀ d ps, dget d "access_policies" = some (Value.list ps) →
      dget (adjust_parameters d) "access_policies" = some (Value.list (ps.map adjustPolicy))) ∧
    (∀ en, adjustPolicy (Value.dict en) = Value.dict (movePerms en)) := by
  refine ⟨dget_movePerms_top e, ⟨?_, ?_, ?_, ?_⟩, ?_, ?_, ?_, fun en => rfl⟩
  · rw [getPermDict_movePerms,
        dget_dsetOpt_ne _ _ _ _ (by decide), dget_dsetOpt_ne _ _ _ _ (by decide),
        dget_dsetOpt_ne _ _ _ _ (by decide), getPermDict_of_no_permissions e hperm]
    exact dget_dsetOpt_eq [] "keys" (dget e "keys") rfl
  · rw [getPermDict_movePerms,
        dget_dsetOpt_ne _ _ _ _ (by decide), dget_dsetOpt_ne _ _ _ _ (by decide)]
    apply dget_dsetOpt_eq
    rw [dget_dsetOpt_ne _ _ _ _ (by decide), getPermDict_of_no_permissions e hperm]
    rfl
  · rw [getPermDict_movePerms, dget_dsetOpt_ne _ _ _ _ (by decide)]
    apply dget_dsetOpt_eq
    rw [dget_dsetOpt_ne _ _ _ _ (by decide), dget_dsetOpt_ne _ _ _ _ (by decide),
        getPermDict_of_no_permissions e hperm]
    rfl
  · rw [getPermDict_movePerms]
    apply dget_dsetOpt_eq
    rw [dget_dsetOpt_ne _ _ _ _ (by decide), dget_dsetOpt_ne _ _ _ _ (by decide),
        dget_dsetOpt_ne _ _ _ _ (by decide), getPermDict_of_no_permissions e hperm]
    rfl
  · intro k h1 h2 h3 h4
    rw [getPermDict_movePerms,
        dget_dsetOpt_ne _ _ _ _ h4, dget_dsetOpt_ne _ _ _ _ h3,
        dget_dsetOpt_ne _ _ _ _ h2, dget_dsetOpt_ne _ _ _ _ h1,
        getPermDict_of_no_permissions e hperm]
    rfl
  · have hcp : containsKey e "permissions" = false := by
      simp [containsKey, hperm]
    simp only [movePerms, containsKey_movePermission_permissions]
    rw [dget_movePermission_other _ _ _ (by decide) (by decide),
        dget_movePermission_other _ _ _ (by decide) (by decide),
        dget_movePermission_other _ _ _ (by decide) (by decide),
        dget_movePermission_other _ _ _ (by decide) (by decide),
        dget_movePermission_other _ _ _ (by decide) (by decide),
        dget_movePermission_other _ _ _ (by decide) (by decide), hcp]
    cases dget e "keys" <;> cases dget e "secrets" <;> cases dget e "certificates" <;>
      cases dget e "storage" <;> rfl
  · intro d ps h
    simp only [adjust_parameters, h]
    rw [dget_dset_eq]

/-- Concrete check of `movePerms` on `entryEx` (which has a `keys` field and
no `permissions` field). -/
theorem movePerms_flat_entry_example :
    dget (movePerms entryEx) "keys" = none ∧
    dget (getPermDict (movePerms entryEx)) "keys" = some (Value.list [Value.str "get"]) := by
  have h := movePerms_flat_entry entryEx rfl
  exact ⟨h.1.1, h.2.1.1.trans rfl⟩

/-- C2: the claimed relocation never happens on the request payload the
program builds.  The parameter loop nests `access_policies` under
`properties` (source line 235), while the `adjust_parameters` guard reads
top-level `self.parameters.get('access_policies')` (source line 315), so the
guard never fires: `adjust_parameters` is the identity on every normalised
payload, and on a concrete configuration carrying a flat entry with a `keys`
field, the dispatched payload still holds that entry unchanged — top-level
`keys` present, no `permissions` container — contrary to the claim (whose
intent the source's own comments at lines 316-319 state). -/
theorem claim_C2_dead_guard :
    (∀ cfg : DesiredConfig, adjust_parameters (buildParameters cfg) = buildParameters cfg) ∧
    dget (getProps (dispatchParams cfgPolicy "eastus")) "access_policies" =
      some (Value.list [Value.dict entryEx]) ∧
    dget entryEx "keys" = some (Value.list [Value.str "get"]) ∧
    dget entryEx "permissions" = none := by
  refine ⟨?_, rfl, rfl, rfl⟩
  intro cfg
  have h : dget (buildParameters cfg) "access_policies" = none :=
    dget_buildParameters_other cfg "access_policies" (by decide) (by decide)
  simp only [adjust_parameters, h]

theorem pollLoop_calls (polls : Nat → GetResult) (i fuel : Nat) :
    ∀ c ∈ (pollLoop polls i fuel).2, c = Call.get ∨ c = Call.sleep20 := by
  induction fuel generalizing i with
  | zero => intro c hc; simp [pollLoop] at hc
  | succ n ih =>
    intro c hc
    by_cases h : truthyOpt (getKeyvault (polls i)) = true
    · simp only [pollLoop, h, if_true, List.mem_cons] at hc
      rcases hc with hc | hc | hc
      · exact Or.inl hc
      · exact Or.inr hc
      · exact ih (i + 1) c hc
    · have hf : truthyOpt (getKeyvault (polls i)) = false := by
        cases hb : truthyOpt (getKeyvault (polls i))
        · rfl
        · exact absurd hb h
      simp [pollLoop, hf] at hc
      exact Or.inl hc

theorem pollLoop_done_iff (polls : Nat → GetResult) (fuel : Nat) : ∀ i,
    ((pollLoop polls i fuel).1 = true ↔
      ∃ k, k < fuel ∧ truthyOpt (getKeyvault (polls (i + k))) = false) := by
  induction fuel with
  | zero => intro i; simp [pollLoop]
  | succ n ih =>
    intro i
    by_cases h : truthyOpt (getKeyvault (polls i)) = true
    · simp only [pollLoop, h, if_true]
      rw [ih (i + 1)]
      constructor
      · rintro ⟨k, hk, hf⟩
        have he : i + 1 + k = i + (k + 1) := by omega
        rw [he] at hf
        exact ⟨k + 1, by omega, hf⟩
      · rintro ⟨k, hk, hf⟩
        cases k with
        | zero =>
          rw [Nat.add_zero] at hf
          rw [h] at hf
          cases hf
        | succ m =>
          have he : i + (m + 1) = i + 1 + m := by omega
          rw [he] at hf
          exact ⟨m, by omega, hf⟩
    · simp only [pollLoop, h, if_false]
      have hf : truthyOpt (getKeyvault (polls i)) = false := by
        cases hb : truthyOpt (getKeyvault (polls i))
        · rfl
        · exact absurd hb h
      constructor
      · intro _
        exact ⟨0, Nat.succ_pos n, by rw [Nat.add_zero]; exact hf⟩
      · intro _
        rfl

theorem truthy_some_of_ne (d : Dict) (hd : d ≠ []) :
    truthyOpt (some d) = true := by
  cases d with
  | nil => exact absurd rfl hd
  | cons kv rest => rfl

/-- C3: whenever the remote resource is present and the desired state is
`present`, exactly one `create_or_update` call is dispatched — regardless of
whether the payload equals the observed state — and the reported `changed` is
the field-wise inequality between the prior observed state and the state the
call returned; when no prior observed state existed (the Create case),
`changed` is `true` (source lines 278-291, 327-345). -/
theorem claim_C3_update_semantics (cfg : DesiredConfig) (env : Env) (fuel : Nat)
    (loc : String) (resp : Dict)
    (hrg : env.rg = Except.ok loc) (hstate : cfg.state = "present")
    (hcm : env.check_mode = false) (hcu : env.createUpdate = CUResult.ok resp) :
    (∀ d : Dict, env.initialGet = GetResult.found d → d ≠ [] →
      exec_module cfg env fuel =
        (Outcome.ok ⟨!dictEqB d resp, idOf (some resp)⟩,
         [Call.getRG, Call.get, Call.createOrUpdate (dispatchParams cfg loc)])) ∧
    (truthyOpt (getKeyvault env.initialGet) = false →
      exec_module cfg env fuel =
        (Outcome.ok ⟨true, idOf (some resp)⟩,
         [Call.getRG, Call.get, Call.createOrUpdate (dispatchParams cfg loc)])) := by
  constructor
  · intro d hget hd
    have ht : truthyOpt (some d) = true := truthy_some_of_ne d hd
    have hca : chooseAction true cfg.state = Actions.Update := by
      rw [hstate]; rfl
    simp only [exec_module, hrg, hget, hcm, hcu, getKeyvault, Option.getD_some,
      hca, ht, Bool.not_true, Bool.false_eq_true, if_false]
  · intro ht
    have hca : chooseAction false cfg.state = Actions.Create := by
      rw [hstate]; rfl
    simp only [exec_module, hrg, hcm, hcu, ht, hca, Bool.not_false, if_true,
      Bool.false_eq_true, if_false]

/-- C4: for every non-dry-run invocation selecting Delete, the remote delete
is called exactly once, after which only get fetches (with the fixed
20-second sleep between attempts) follow; the invocation completes exactly
when some poll fetch reports the resource absent, and for no amount of fuel
does it complete otherwise — the loop has no other upper bound (source lines
292-303). -/
theorem claim_C4_delete_polling (cfg : DesiredConfig) (env : Env) (fuel : Nat)
    (loc : String) (d : Dict)
    (hrg : env.rg = Except.ok loc) (hget : env.initialGet = GetResult.found d)
    (hd : d ≠ []) (hstate : cfg.state = "absent") (hcm : env.check_mode = false)
    (hdel : env.deleteRes = DelResult.ok) :
    (exec_module cfg env fuel).2 =
      [Call.getRG, Call.get, Call.delete] ++ (pollLoop env.polls 0 fuel).2 ∧
    (exec_module cfg env fuel).2.countP isDel = 1 ∧
    (∀ c ∈ (pollLoop env.polls 0 fuel).2, c = Call.get ∨ c = Call.sleep20) ∧
    ((exec_module cfg env fuel).1 = Outcome.ok ⟨true, none⟩ ↔
      ∃ k, k < fuel ∧ truthyOpt (getKeyvault (env.polls k)) = false) ∧
    ((exec_module cfg env fuel).1 = Outcome.outOfFuel ↔
      ¬∃ k, k < fuel ∧ truthyOpt (getKeyvault (env.polls k)) = false) := by
  have ht : truthyOpt (some d) = true := truthy_some_of_ne d hd
  have hca : chooseAction true cfg.state = Actions.Delete := by
    rw [hstate]; rfl
  have hmain : exec_module cfg env fuel =
      ((if (pollLoop env.polls 0 fuel).1 = true then Outcome.ok ⟨true, none⟩
        else Outcome.outOfFuel),
       [Call.getRG, Call.get, Call.delete] ++ (pollLoop env.polls 0 fuel).2) := by
    simp only [exec_module, hrg, hget, getKeyvault, ht, hca, hcm, hdel,
      Bool.false_eq_true, if_false]
  have hiff : ((pollLoop env.polls 0 fuel).1 = true ↔
      ∃ k, k < fuel ∧ truthyOpt (getKeyvault (env.polls k)) = false) := by
    have h0 := pollLoop_done_iff env.polls fuel 0
    simpa using h0
  refine ⟨by rw [hmain], ?_, pollLoop_calls env.polls 0 fuel, ?_, ?_⟩
  · rw [hmain]
    simp only [List.countP_append]
    have h1 : List.countP isDel [Call.getRG, Call.get, Call.delete] = 1 := by
      simp [List.countP_cons, isDel]
    have h2 : List.countP isDel (pollLoop env.polls 0 fuel).2 = 0 := by
      rw [List.countP_eq_zero]
      intro c hc
      rcases pollLoop_calls env.polls 0 fuel c hc with h | h <;> simp [h, isDel]
    rw [h1, h2]
  · rw [hmain]
    cases hb : (pollLoop env.polls 0 fuel).1 with
    | true => simp only [if_true]; rw [← hiff]; simp [hb]
    | false =>
      simp only [Bool.false_eq_true, if_false]
      rw [← hiff]
      simp [hb]
  · rw [hmain]
    cases hb : (pollLoop env.polls 0 fuel).1 with
    | true => simp only [if_true]; rw [← hiff]; simp [hb]
    | false =>
      simp only [Bool.false_eq_true, if_false]
      rw [← hiff]
      simp [hb]

/-- C7: for every dry-run (check-mode) invocation (with a resolvable resource
group), no mutating remote call is made — the trace is exactly the
resource-group lookup and the initial get — and the reported `changed` is
`true` when the selected action is Create, Update or Delete and `false` when
it is NoAction (source lines 281-283, 294-297, 304-306). -/
theorem claim_C7_check_mode (cfg : DesiredConfig) (env : Env) (fuel : Nat) (loc : String)
    (hrg : env.rg = Except.ok loc) (hcm : env.check_mode = true) :
    (exec_module cfg env fuel).2 = [Call.getRG, Call.get] ∧
    (∀ c ∈ (exec_module cfg env fuel).2, isMutating c = false) ∧
    (chooseAction (truthyOpt (getKeyvault env.initialGet)) cfg.state = Actions.NoAction →
      (exec_module cfg env fuel).1 =
        Outcome.ok ⟨false, idOf (getKeyvault env.initialGet)⟩) ∧
    (chooseAction (truthyOpt (getKeyvault env.initialGet)) cfg.state ≠ Actions.NoAction →
      (exec_module cfg env fuel).1 = Outcome.ok ⟨true, none⟩) := by
  cases hca : chooseAction (truthyOpt (getKeyvault env.initialGet)) cfg.state with
  | NoAction =>
    have hmain : exec_module cfg env fuel =
        (Outcome.ok ⟨false, idOf (getKeyvault env.initialGet)⟩, [Call.getRG, Call.get]) := by
      simp only [exec_module, hrg, hca]
    refine ⟨by rw [hmain], ?_, fun _ => by rw [hmain], fun h => absurd rfl h⟩
    intro c hc
    rw [hmain] at hc
    simp only [List.mem_cons, List.not_mem_nil, or_false] at hc
    rcases hc with rfl | rfl <;> rfl
  | Create =>
    have hmain : exec_module cfg env fuel =
        (Outcome.ok ⟨true, none⟩, [Call.getRG, Call.get]) := by
      simp only [exec_module, hrg, hca, hcm, if_true]
    refine ⟨by rw [hmain], ?_, fun h => absurd h (by decide), fun _ => by rw [hmain]⟩
    intro c hc
    rw [hmain] at hc
    simp only [List.mem_cons, List.not_mem_nil, or_false] at hc
    rcases hc with rfl | rfl <;> rfl
  | Update =>
    have hmain : exec_module cfg env fuel =
        (Outcome.ok ⟨true, none⟩, [Call.getRG, Call.get]) := by
      simp only [exec_module, hrg, hca, hcm, if_true]
    refine ⟨by rw [hmain], ?_, fun h => absurd h (by decide), fun _ => by rw [hmain]⟩
    intro c hc
    rw [hmain] at hc
    simp only [List.mem_cons, List.not_mem_nil, or_false] at hc
    rcases hc with rfl | rfl <;> rfl
  | Delete =>
    have hmain : exec_module cfg env fuel =
        (Outcome.ok ⟨true, none⟩, [Call.getRG, Call.get]) := by
      simp only [exec_module, hrg, hca, hcm, if_true]
    refine ⟨by rw [hmain], ?_, fun h => absurd h (by decide), fun _ => by rw [hmain]⟩
    intro c hc
    rw [hmain] at hc
    simp only [List.mem_cons, List.not_mem_nil, or_false] at hc
    rcases hc with rfl | rfl <;> rfl

/-- C8: every failure raised by the remote get during the initial fetch is
converted into the observed state "absent" (the fetch returns `False`), and
is never surfaced as a failure of the invocation: with a failing initial get,
the only possible invocation failures are the resource-group resolution
failure or a create failure on the resulting Create path (source lines
363-382, 262-269). -/
theorem claim_C8_get_failure_absent (e : String) :
    getKeyvault (GetResult.cloudError e) = none ∧
    (∀ (cfg : DesiredConfig) (env : Env) (fuel : Nat),
      env.initialGet = GetResult.cloudError e →
      ∀ m, (exec_module cfg env fuel).1 = Outcome.failed m →
        env.rg = Except.error m ∨
        ∃ c, env.createUpdate = CUResult.cloudError c ∧
          m = "Error creating the Key Vault instance: " ++ c) := by
  refine ⟨rfl, ?_⟩
  intro cfg env fuel hget m hm
  cases hrg : env.rg with
  | error er =>
    simp only [exec_module, hrg, Outcome.failed.injEq] at hm
    exact Or.inl (by rw [hm])
  | ok rgLocation =>
    by_cases hs : cfg.state = "absent"
    · have hca : chooseAction false cfg.state = Actions.NoAction := by
        rw [hs]; rfl
      simp only [exec_module, hrg, hget, getKeyvault, truthyOpt, hca] at hm
      cases hm
    · have hca : chooseAction false cfg.state = Actions.Create := by
        simp [chooseAction, hs]
      cases hcm : env.check_mode with
      | true =>
        simp only [exec_module, hrg, hget, getKeyvault, truthyOpt, hca, hcm, if_true] at hm
        cases hm
      | false =>
        cases hcu : env.createUpdate with
        | ok resp =>
          simp only [exec_module, hrg, hget, getKeyvault, truthyOpt, hca, hcm, hcu,
            Bool.false_eq_true, if_false] at hm
          cases hm
        | cloudError c =>
          simp only [exec_module, hrg, hget, getKeyvault, truthyOpt, hca, hcm, hcu,
            Bool.false_eq_true, if_false, Outcome.failed.injEq] at hm
          exact Or.inr ⟨c, rfl, hm.symm⟩

/-- C9: a remote-call failure during create-or-update or delete aborts the
invocation immediately with a message naming the operation context and the
underlying cause, and the failed operation is not retried — the trace ends at
the single failed mutating call (source lines 335-345, 354-361). -/
theorem claim_C9_mutation_failure (cfg : DesiredConfig) (env : Env) (fuel : Nat)
    (loc : String) (c : String)
    (hrg : env.rg = Except.ok loc) (hcm : env.check_mode = false) :
    (cfg.state = "present" → env.createUpdate = CUResult.cloudError c →
      exec_module cfg env fuel =
        (Outcome.failed ("Error creating the Key Vault instance: " ++ c),
         [Call.getRG, Call.get, Call.createOrUpdate (dispatchParams cfg loc)])) ∧
    (∀ d, cfg.state = "absent" → env.initialGet = GetResult.found d → d ≠ [] →
      env.deleteRes = DelResult.cloudError c →
      exec_module cfg env fuel =
        (Outcome.failed ("Error deleting the Key Vault instance: " ++ c),
         [Call.getRG, Call.get, Call.delete])) := by
  constructor
  · intro hstate hcu
    cases htr : truthyOpt (getKeyvault env.initialGet) with
    | false =>
      have hca : chooseAction false cfg.state = Actions.Create := by
        rw [hstate]; rfl
      simp only [exec_module, hrg, htr, hca, hcm, hcu, Bool.false_eq_true, if_false]
    | true =>
      have hca : chooseAction true cfg.state = Actions.Update := by
        rw [hstate]; rfl
      simp only [exec_module, hrg, htr, hca, hcm, hcu, Bool.false_eq_true, if_false]
  · intro d hstate hget hd hdel
    have ht : truthyOpt (some d) = true := truthy_some_of_ne d hd
    have hca : chooseAction true cfg.state = Actions.Delete := by
      rw [hstate]; rfl
    simp only [exec_module, hrg, hget, getKeyvault, ht, hca, hcm, hdel,
      Bool.false_eq_true, if_false]

theorem dget_adjust_parameters_ne (d : Dict) (k : String) (h : k ≠ "access_policies") :
    dget (adjust_parameters d) k = dget d k := by
  simp only [adjust_parameters]
  split
  · rw [dget_dset_ne _ _ _ _ h]
  · rfl

/-- The dispatched payload's top-level `location`: the caller's value when
supplied, the resource group's location otherwise. -/
theorem dget_dispatchParams_location (cfg : DesiredConfig) (loc : String) :
    dget (dispatchParams cfg loc) "location" =
      (match cfg.location with
       | some v => some v
       | none => some (Value.str loc)) := by
  have ha : dget (adjust_parameters (buildParameters cfg)) "location" = cfg.location := by
    rw [dget_adjust_parameters_ne _ _ (by decide), dget_buildParameters_location]
  cases hl : cfg.location with
  | some v =>
    simp only [dispatchParams, containsKey, ha, hl, Option.isSome_some, if_true]
  | none =>
    simp only [dispatchParams, containsKey, ha, hl, Option.isSome_none,
      Bool.false_eq_true, if_false]
    rw [dget_dset_eq]

/-- Any `create_or_update` call recorded in the trace carries exactly the
dispatched payload. -/
theorem exec_createOrUpdate_mem (cfg : DesiredConfig) (env : Env) (fuel : Nat)
    (loc : String) (p : Dict) (hrg : env.rg = Except.ok loc)
    (hmem : Call.createOrUpdate p ∈ (exec_module cfg env fuel).2) :
    p = dispatchParams cfg loc := by
  cases hca : chooseAction (truthyOpt (getKeyvault env.initialGet)) cfg.state with
  | NoAction =>
    simp only [exec_module, hrg, hca] at hmem
    simp at hmem
  | Create =>
    cases hcm : env.check_mode with
    | true =>
      simp only [exec_module, hrg, hca, hcm, if_true] at hmem
      simp at hmem
    | false =>
      cases hcu : env.createUpdate with
      | ok resp =>
        simp only [exec_module, hrg, hca, hcm, hcu, Bool.false_eq_true, if_false] at hmem
        simp at hmem
        exact hmem
      | cloudError msg =>
        simp only [exec_module, hrg, hca, hcm, hcu, Bool.false_eq_true, if_false] at hmem
        simp at hmem
        exact hmem
  | Update =>
    cases hcm : env.check_mode with
    | true =>
      simp only [exec_module, hrg, hca, hcm, if_true] at hmem
      simp at hmem
    | false =>
      cases hcu : env.createUpdate with
      | ok resp =>
        simp only [exec_module, hrg, hca, hcm, hcu, Bool.false_eq_true, if_false] at hmem
        simp at hmem
        exact hmem
      | cloudError msg =>
        simp only [exec_module, hrg, hca, hcm, hcu, Bool.false_eq_true, if_false] at hmem
        simp at hmem
        exact hmem
  | Delete =>
    cases hcm : env.check_mode with
    | true =>
      simp only [exec_module, hrg, hca, hcm, if_true] at hmem
      simp at hmem
    | false =>
      cases hdel : env.deleteRes with
      | cloudError msg =>
        simp only [exec_module, hrg, hca, hcm, hdel, Bool.false_eq_true, if_false] at hmem
        simp at hmem
      | ok =>
        simp only [exec_module, hrg, hca, hcm, hdel, Bool.false_eq_true, if_false,
          List.mem_append, List.mem_cons, List.not_mem_nil, or_false] at hmem
        rcases hmem with (hmem | hmem | hmem) | hmem
        · cases hmem
        · cases hmem
        · cases hmem
        · rcases pollLoop_calls env.polls 0 fuel _ hmem with h | h <;> cases h

/-- C6: when `location` is supplied, the payload's top-level `location` is the
caller's value verbatim (in the normaliser's output and in every dispatched
payload); when it is unset, the normaliser's payload omits top-level
`location` and the reconciler populates it with the resource group's reported
location before any create-or-update dispatch (source lines 227-229,
257-260). -/
theorem claim_C6_location_defaulting (cfg : DesiredConfig) (env : Env) (fuel : Nat)
    (loc : String) (hrg : env.rg = Except.ok loc) :
    (∀ v, cfg.location = some v →
      dget (buildParameters cfg) "location" = some v ∧
      ∀ p, Call.createOrUpdate p ∈ (exec_module cfg env fuel).2 →
        dget p "location" = some v) ∧
    (cfg.location = none →
      dget (buildParameters cfg) "location" = none ∧
      ∀ p, Call.createOrUpdate p ∈ (exec_module cfg env fuel).2 →
        dget p "location" = some (Value.str loc)) := by
  constructor
  · intro v hl
    refine ⟨by rw [dget_buildParameters_location, hl], ?_⟩
    intro p hp
    rw [exec_createOrUpdate_mem cfg env fuel loc p hrg hp,
        dget_dispatchParams_location, hl]
  · intro hl
    refine ⟨by rw [dget_buildParameters_location, hl], ?_⟩
    intro p hp
    rw [exec_createOrUpdate_mem cfg env fuel loc p hrg hp,
        dget_dispatchParams_location, hl]

/-- The remote-call trace of every invocation with a resolvable resource
group starts with the resource-group lookup followed by the initial get. -/
theorem exec_trace_shape (cfg : DesiredConfig) (env : Env) (fuel : Nat)
    (loc : String) (hrg : env.rg = Except.ok loc) :
    ∃ rest, (exec_module cfg env fuel).2 = Call.getRG :: Call.get :: rest := by
  cases hca : chooseAction (truthyOpt (getKeyvault env.initialGet)) cfg.state with
  | NoAction =>
    exact ⟨[], by simp only [exec_module, hrg, hca]⟩
  | Create =>
    cases hcm : env.check_mode with
    | true => exact ⟨[], by simp only [exec_module, hrg, hca, hcm, if_true]⟩
    | false =>
      cases hcu : env.createUpdate with
      | ok resp =>
        exact ⟨[Call.createOrUpdate (dispatchParams cfg loc)],
          by simp only [exec_module, hrg, hca, hcm, hcu, Bool.false_eq_true, if_false]⟩
      | cloudError msg =>
        exact ⟨[Call.createOrUpdate (dispatchParams cfg loc)],
          by simp only [exec_module, hrg, hca, hcm, hcu, Bool.false_eq_true, if_false]⟩
  | Update =>
    cases hcm : env.check_mode with
    | true => exact ⟨[], by simp only [exec_module, hrg, hca, hcm, if_true]⟩
    | false =>
      cases hcu : env.createUpdate with
      | ok resp =>
        exact ⟨[Call.createOrUpdate (dispatchParams cfg loc)],
          by simp only [exec_module, hrg, hca, hcm, hcu, Bool.false_eq_true, if_false]⟩
      | cloudError msg =>
        exact ⟨[Call.createOrUpdate (dispatchParams cfg loc)],
          by simp only [exec_module, hrg, hca, hcm, hcu, Bool.false_eq_true, if_false]⟩
  | Delete =>
    cases hcm : env.check_mode with
    | true => exact ⟨[], by simp only [exec_module, hrg, hca, hcm, if_true]⟩
    | false =>
      cases hdel : env.deleteRes with
      | cloudError msg =>
        exact ⟨[Call.delete],
          by simp only [exec_module, hrg, hca, hcm, hdel, Bool.false_eq_true, if_false]⟩
      | ok =>
        exact ⟨Call.delete :: (pollLoop env.polls 0 fuel).2,
          by simp only [exec_module, hrg, hca, hcm, hdel, Bool.false_eq_true, if_false]; rfl⟩

/-- C10: on every invocation, regardless of desired state and selected
action, the resource-group lookup is the first remote interaction and
precedes the observed-state fetch; an unresolvable resource group fails the
invocation outright (even for Delete and NoAction paths, since the lookup
precedes the action decision); and with `location` unset every dispatched
payload carries the resource group's location (source lines 254-262). -/
theorem claim_C10_rg_lookup_always (cfg : DesiredConfig) (env : Env) (fuel : Nat) :
    (∃ rest, (exec_module cfg env fuel).2 = Call.getRG :: rest) ∧
    (∀ e, env.rg = Except.error e →
      exec_module cfg env fuel = (Outcome.failed e, [Call.getRG])) ∧
    (∀ loc, env.rg = Except.ok loc →
      ∃ rest, (exec_module cfg env fuel).2 = Call.getRG :: Call.get :: rest) ∧
    (∀ loc, env.rg = Except.ok loc → cfg.location = none →
      ∀ p, Call.createOrUpdate p ∈ (exec_module cfg env fuel).2 →
        dget p "location" = some (Value.str loc)) := by
  refine ⟨?_, ?_, ?_, ?_⟩
  · cases hrg : env.rg with
    | error e => exact ⟨[], by simp only [exec_module, hrg]⟩
    | ok loc =>
      rcases exec_trace_shape cfg env fuel loc hrg with ⟨rest, hr⟩
      exact ⟨Call.get :: rest, hr⟩
  · intro e hrg
    simp only [exec_module, hrg]
  · intro loc hrg
    exact exec_trace_shape cfg env fuel loc hrg
  · intro loc hrg hl p hp
    rw [exec_createOrUpdate_mem cfg env fuel loc p hrg hp,
        dget_dispatchParams_location, hl]

/-- Witness for C3 at a concrete present/present invocation: one
create-or-update call, `changed` is the field-wise inequality (here `true`)
and the new identifier is reported. -/
theorem claim_C3_witness :
    exec_module cfgPresent envUpdate 1 =
      (Outcome.ok ⟨true, some (Value.str "vid")⟩,
       [Call.getRG, Call.get, Call.createOrUpdate (dispatchParams cfgPresent "eastus")]) := by
  have h := (claim_C3_update_semantics cfgPresent envUpdate 1 "eastus" respEx
    rfl rfl rfl rfl).1 oldEx rfl (by simp [oldEx])
  rw [h]
  rfl

/-- Witness for C4 at a concrete absent/present invocation whose first poll
reports absence: delete once, one poll fetch, success. -/
theorem claim_C4_witness :
    (exec_module cfgAbsent envUpdate 1).1 = Outcome.ok ⟨true, none⟩ ∧
    (exec_module cfgAbsent envUpdate 1).2 =
      [Call.getRG, Call.get, Call.delete, Call.get] := by
  have h := claim_C4_delete_polling cfgAbsent envUpdate 1 "eastus" oldEx
    rfl rfl (by simp [oldEx]) rfl rfl rfl
  refine ⟨h.2.2.2.1.mpr ⟨0, Nat.zero_lt_one, rfl⟩, ?_⟩
  rw [h.1]
  rfl

/-- Witness for C5 at a concrete configuration: an unrelated key is absent
from the payload and the supplied SKU sits under `properties` verbatim. -/
theorem claim_C5_witness :
    dget (buildParameters cfgPresent) "nonsense" = none ∧
    dget (getProps (buildParameters cfgPresent)) "sku" = some skuEx := by
  have h := claim_C5_payload_nesting cfgPresent
  exact ⟨h.2.2.2.2.2.2.2.2.2.2 "nonsense" (by decide) (by decide), h.2.1.trans rfl⟩

/-- Witness for C6 at a concrete configuration without `location`: the
normaliser omits it and the dispatched payload carries the resource group's
location. -/
theorem claim_C6_witness :
    dget (buildParameters cfgPresent) "location" = none ∧
    dget (dispatchParams cfgPresent "eastus") "location" = some (Value.str "eastus") := by
  have hmem : Call.createOrUpdate (dispatchParams cfgPresent "eastus") ∈
      (exec_module cfgPresent envUpdate 1).2 := by
    show Call.createOrUpdate (dispatchParams cfgPresent "eastus") ∈
      [Call.getRG, Call.get, Call.createOrUpdate (dispatchParams cfgPresent "eastus")]
    simp
  have h := (claim_C6_location_defaulting cfgPresent envUpdate 1 "eastus" rfl).2 rfl
  exact ⟨h.1, h.2 (dispatchParams cfgPresent "eastus") hmem⟩

/-- Witness for C7 at a concrete check-mode invocation: no mutating call,
`changed = true` for the Update action. -/
theorem claim_C7_witness :
    (exec_module cfgPresent envCheck 1).2 = [Call.getRG, Call.get] ∧
    (exec_module cfgPresent envCheck 1).1 = Outcome.ok ⟨true, none⟩ := by
  have h := claim_C7_check_mode cfgPresent envCheck 1 "eastus" rfl rfl
  exact ⟨h.1, h.2.2.2 (by decide)⟩

/-- Witness for C8: a concrete failed get maps to absence, and a concrete
invocation failure with a failing initial get is the resource-group failure,
not the get failure. -/
theorem claim_C8_witness :
    getKeyvault (GetResult.cloudError "boom") = none ∧
    (envRgFail.rg = Except.error "rg missing" ∨
     ∃ c, envRgFail.createUpdate = CUResult.cloudError c ∧
       "rg missing" = "Error creating the Key Vault instance: " ++ c) := by
  have h := claim_C8_get_failure_absent "boom"
  exact ⟨h.1, h.2 cfgPresent envRgFail 1 rfl "rg missing" rfl⟩

/-- Witness for C9 at a concrete failing create and a concrete failing
delete: the invocation fails with the context-bearing message and the trace
ends at the single dispatch. -/
theorem claim_C9_witness :
    exec_module cfgPresent envCreateFail 1 =
      (Outcome.failed ("Error creating the Key Vault instance: " ++ "quota"),
       [Call.getRG, Call.get, Call.createOrUpdate (dispatchParams cfgPresent "eastus")]) ∧
    exec_module cfgAbsent envDeleteFail 1 =
      (Outcome.failed ("Error deleting the Key Vault instance: " ++ "denied"),
       [Call.getRG, Call.get, Call.delete]) :=
  ⟨(claim_C9_mutation_failure cfgPresent envCreateFail 1 "eastus" "quota" rfl rfl).1 rfl rfl,
   (claim_C9_mutation_failure cfgAbsent envDeleteFail 1 "eastus" "denied" rfl rfl).2
     oldEx rfl rfl (by simp [oldEx]) rfl⟩

/-- Witness for C10 at a concrete unresolvable resource group: the invocation
fails after the lookup alone, before any get. -/
theorem claim_C10_witness :
    exec_module cfgPresent envRgFail 1 = (Outcome.failed "rg missing", [Call.getRG]) :=
  (claim_C10_rg_lookup_always cfgPresent envRgFail 1).2.1 "rg missing" rfl
